import Mathlib

/-!
Verification of the contact-submission pipeline of the personal-portfolio
repository (src/pages/api/contact.ts): the server-side relay endpoint
`handler`, its module-initialization environment checks, and the client-side
`ContactSection` form controller (`handleSubmit`).

Server side: the handler is embedded as a pure function parametrized over the
mail transport (`sendMail`), returning the HTTP response together with the
list of transport invocations (the arguments of each `sendMail` call) and the
list of `console.error` log lines, so that "the transport is invoked exactly
once with mail m" and "the error is logged" become statements about those
lists.

Client side: `handleSubmit` is embedded as the trace of effects it performs
(preventDefault, setStatus, the outbound fetch, setEmail, setMessage), and a
small interpreter `runEvents` folds that trace over the form state, so that
claims about the fields and the displayed status after a submission are
statements about the final state.
-/

/-- JS template-literal interpolation of a possibly-undefined value:
`undefined` renders as the string "undefined". -/
def jsToString : Option String → String
  | none => "undefined"
  | some s => s

/-- JS falsiness of a `string | undefined` value: `undefined` and the empty
string are falsy, every other string is truthy. -/
def falsy : Option String → Bool
  | none => true
  | some s => s == ""

/-- The process environment as the module reads it: the three variables
`process.env.EMAIL_USER`, `process.env.EMAIL_PASS`, `process.env.EMAIL_TO`,
each possibly undefined. -/
structure Env where
  EMAIL_USER : Option String
  EMAIL_PASS : Option String
  EMAIL_TO : Option String

/-- The configuration the module holds once initialization has passed. -/
structure Config where
  emailUser : String
  emailPass : String
  emailTo : String
deriving DecidableEq, Repr

/-- Module initialization (contact.ts lines 9-24): reads the three
environment variables and throws (`.error`) on the first falsy one, in the
source order EMAIL_USER, EMAIL_PASS, EMAIL_TO; otherwise the module-level
constants are bound and initialization succeeds. An `.error` result models a
thrown module-load error: no handler invocation can occur, since no `Config`
value exists to invoke `handler` with. -/
def initModule (env : Env) : Except String Config :=
  if falsy env.EMAIL_USER then
    .error "Missing environment variable: EMAIL_USER"
  else if falsy env.EMAIL_PASS then
    .error "Missing environment variable: EMAIL_PASS"
  else if falsy env.EMAIL_TO then
    .error "Missing environment variable: EMAIL_TO"
  else
    .ok { emailUser := env.EMAIL_USER.getD ""
          emailPass := env.EMAIL_PASS.getD ""
          emailTo := env.EMAIL_TO.getD "" }

/-- The argument of `transporter.sendMail` (contact.ts lines 47-52). The
submitter-controlled fields come from the request body and may be undefined
(no schema validation), hence `Option String`; `to` is always the configured
recipient, a plain string. -/
structure Mail where
  «from» : Option String
  «to» : String
  subject : String
  text : Option String
deriving DecidableEq, Repr

/-- The request body as the handler destructures it: `const { email, message }
= req.body`, either field possibly undefined. -/
structure Body where
  email : Option String
  message : Option String
deriving DecidableEq, Repr

/-- An incoming HTTP request: its method and its (already-parsed) body. -/
structure Request where
  method : String
  body : Body
deriving DecidableEq, Repr

/-- An HTTP response as the handler produces it: `res.status(n).json(\x7b
message \x7d)` — a status code paired with the `message` field of the JSON
body. -/
structure Response where
  status : Nat
  message : String
deriving DecidableEq, Repr

/-- The mail the handler composes for a given configuration and request body
(contact.ts lines 47-52): `from` is the submitter-supplied email, `to` the
configured recipient, the subject the template literal interpolating the
submitter-supplied email, the text the submitter-supplied message. -/
def mailOf (cfg : Config) (b : Body) : Mail :=
  { «from» := b.email
    «to» := cfg.emailTo
    subject := "Message from " ++ jsToString b.email
    text := b.message }

/-- The relay endpoint handler (contact.ts lines 36-60), parametrized over
the mail transport `send`. Returns the response, the list of transport
invocations performed (each element the argument of one `sendMail` call), and
the list of `console.error` log lines. Non-POST requests are rejected with
405 before the body is read; otherwise one mail is composed and sent, and the
response is 200 with a fixed success message on transport success or 500 with
a fixed failure message (the transport error logged, not returned) on
transport failure. -/
def handler (cfg : Config) (send : Mail → Except String Unit)
    (req : Request) : Response × List Mail × List String :=
  if req.method ≠ "POST" then
    (⟨405, "Method not allowed"⟩, [], [])
  else
    match send (mailOf cfg req.body) with
    | .ok _ => (⟨200, "Message sent successfully!"⟩, [mailOf cfg req.body], [])
    | .error err =>
        (⟨500, "Failed to send message."⟩, [mailOf cfg req.body],
         ["Email failed: " ++ err])

/-- The local state of the `ContactSection` component: the `email`, `message`
and `status` React state strings. -/
structure FormState where
  email : String
  message : String
  status : String
deriving DecidableEq, Repr

/-- One observable effect performed by the form controller: the
`e.preventDefault()` call, a `setStatus`, the outbound `fetch` POST (recorded
with its URL and the `email`/`message` values serialized in its JSON body), a
`setEmail`, or a `setMessage`. -/
inductive ClientEvent where
  | preventDefault
  | setStatus (s : String)
  | fetchPost (url : String) (email : String) (message : String)
  | setEmail (s : String)
  | setMessage (s : String)
deriving DecidableEq, Repr

/-- Effect of one client event on the form state: the three React setters
update their field; `preventDefault` and the outbound fetch leave the form
state unchanged. -/
def applyEvent (st : FormState) : ClientEvent → FormState
  | .preventDefault => st
  | .setStatus s => { st with status := s }
  | .fetchPost _ _ _ => st
  | .setEmail s => { st with email := s }
  | .setMessage s => { st with message := s }

/-- Interpreter for a trace of client events over the form state. -/
def runEvents (st : FormState) (es : List ClientEvent) : FormState :=
  es.foldl applyEvent st

/-- The synchronous part of `handleSubmit` (index.tsx, the statements up to
and including the `fetch` call): prevent the default form navigation, set the
status to the in-progress indicator, and issue the POST to /api/contact with
the current `email` and `message` values in the JSON body. -/
def submitStart (st : FormState) : List ClientEvent :=
  [.preventDefault, .setStatus "Sending...",
   .fetchPost "/api/contact" st.email st.message]

/-- The continuation of `handleSubmit` after the response has been received
and parsed: set the status to the response body's `message` field verbatim,
then clear both input fields. -/
def submitResume (r : Response) : List ClientEvent :=
  [.setStatus r.message, .setEmail "", .setMessage ""]

/-- The full effect trace of one `handleSubmit` invocation from form state
`st`. `outcome` is how the awaited exchange settles: `.ok r` when the fetch
resolves and the response body parses as JSON (yielding the response `r`),
`.error ()` when the fetch rejects or JSON parsing fails — in that case the
async function terminates with the rejection and, having no catch handler,
performs none of the continuation effects. `handleSubmit` reads only
`r.message` from the response; the HTTP status code is never inspected. -/
def handleSubmit (st : FormState) (outcome : Except Unit Response) :
    List ClientEvent :=
  submitStart st ++
    match outcome with
    | .error _ => []
    | .ok r => submitResume r

/-- Whether an event is the outbound fetch. -/
def isFetch : ClientEvent → Bool
  | .fetchPost _ _ _ => true
  | _ => false

/-- Whether an event is a `setStatus` call. -/
def isSetStatus : ClientEvent → Bool
  | .setStatus _ => true
  | _ => false

/-- Number of outbound fetch requests in a trace. -/
def countFetch (es : List ClientEvent) : Nat := es.countP isFetch

/-- Number of `setStatus` calls in a trace. -/
def countSetStatus (es : List ClientEvent) : Nat := es.countP isSetStatus

/-- Combined trace of two overlapping submissions: the second submit occurs
(from form state `st2`) while the first (from form state `st1`) is still
awaiting its response, and the two responses then resolve in the order
`rFirst`, `rLast`. Each resumed continuation runs its three setter calls
synchronously, without interleaving. -/
def twoSubmitTrace (st1 st2 : FormState) (rFirst rLast : Response) :
    List ClientEvent :=
  submitStart st1 ++ submitStart st2 ++ submitResume rFirst ++
    submitResume rLast

/-- Claim C1: for every POST request whose mail-transport send fails, the
handler returns status 500 with body message "Failed to send message.", logs
the underlying transport error server-side (the log line carries `err`), and
the response carries only the fixed generic message, no detail of the
transport error. -/
theorem handler_transport_failure (cfg : Config)
    (send : Mail → Except String Unit) (req : Request) (err : String)
    (hm : req.method = "POST")
    (hs : send (mailOf cfg req.body) = .error err) :
    handler cfg send req =
      (⟨500, "Failed to send message."⟩, [mailOf cfg req.body],
       ["Email failed: " ++ err]) := by
  simp [handler, hm, hs]

/-- Witness for C1: a concrete POST request with a transport that fails with
error "auth" yields 500, the fixed failure body, and the logged error. -/
theorem handler_transport_failure_witness :
    handler ⟨"user", "pass", "me@site"⟩ (fun _ => .error "auth")
      ⟨"POST", ⟨some "a@b.com", some "hello"⟩⟩ =
      (⟨500, "Failed to send message."⟩,
       [⟨some "a@b.com", "me@site", "Message from a@b.com", some "hello"⟩],
       ["Email failed: auth"]) :=
  handler_transport_failure _ _ _ _ rfl rfl

/-- Claim C2: for every POST request whose mail-transport send succeeds, the
handler returns status 200 with body message "Message sent successfully!". -/
theorem handler_transport_success (cfg : Config)
    (send : Mail → Except String Unit) (req : Request)
    (hm : req.method = "POST")
    (hs : send (mailOf cfg req.body) = .ok ()) :
    handler cfg send req =
      (⟨200, "Message sent successfully!"⟩, [mailOf cfg req.body], []) := by
  simp [handler, hm, hs]

/-- Witness for C2: a concrete POST request with a transport that succeeds
yields 200 and the fixed success body. -/
theorem handler_transport_success_witness :
    handler ⟨"user", "pass", "me@site"⟩ (fun _ => .ok ())
      ⟨"POST", ⟨some "a@b.com", some "hello"⟩⟩ =
      (⟨200, "Message sent successfully!"⟩,
       [⟨some "a@b.com", "me@site", "Message from a@b.com", some "hello"⟩],
       []) :=
  handler_transport_success _ _ _ rfl rfl

/-- Claim C3: for every request whose method is not POST, the handler
returns status 405 with body message "Method not allowed", and the mail
transport is never invoked (the list of transport invocations is empty), for
every transport. -/
theorem handler_rejects_non_post (cfg : Config)
    (send : Mail → Except String Unit) (req : Request)
    (hm : req.method ≠ "POST") :
    handler cfg send req = (⟨405, "Method not allowed"⟩, [], []) := by
  simp [handler, hm]

/-- Witness for C3: a concrete GET request yields 405, the fixed body, and
no transport invocation. -/
theorem handler_rejects_non_post_witness :
    handler ⟨"user", "pass", "me@site"⟩ (fun _ => .ok ())
      ⟨"GET", ⟨some "a@b.com", some "hello"⟩⟩ =
      (⟨405, "Method not allowed"⟩, [], []) :=
  handler_rejects_non_post _ _ _ (by decide)

/-- Claim C4: if any of the three environment variables EMAIL_USER,
EMAIL_PASS, EMAIL_TO is absent, module initialization throws (returns
`.error`), so the endpoint cannot serve any request; with all three present
(set to nonempty strings — by JS falsiness an empty string behaves like
absence), initialization succeeds with the corresponding configuration. -/
theorem initModule_fail_fast (env : Env) :
    ((env.EMAIL_USER = none ∨ env.EMAIL_PASS = none ∨ env.EMAIL_TO = none) →
      ∃ m, initModule env = .error m) ∧
    (∀ u p t, env.EMAIL_USER = some u → env.EMAIL_PASS = some p →
      env.EMAIL_TO = some t → u ≠ "" → p ≠ "" → t ≠ "" →
      initModule env = .ok ⟨u, p, t⟩) := by
  constructor
  · intro h
    unfold initModule
    split_ifs with h1 h2 h3
    · exact ⟨_, rfl⟩
    · exact ⟨_, rfl⟩
    · exact ⟨_, rfl⟩
    · exfalso
      rcases h with h | h | h <;> simp [falsy, h] at h1 h2 h3
  · intro u p t hu hp ht hu0 hp0 ht0
    simp [initModule, falsy, hu, hp, ht, hu0, hp0, ht0]

/-- Witness for C4: with EMAIL_USER absent initialization throws; with all
three variables set to nonempty strings it succeeds. -/
theorem initModule_fail_fast_witness :
    (∃ m, initModule ⟨none, some "pass", some "me@site"⟩ = .error m) ∧
    initModule ⟨some "user", some "pass", some "me@site"⟩ =
      .ok ⟨"user", "pass", "me@site"⟩ :=
  ⟨(initModule_fail_fast ⟨none, some "pass", some "me@site"⟩).1 (Or.inl rfl),
   (initModule_fail_fast ⟨some "user", some "pass", some "me@site"⟩).2
     "user" "pass" "me@site" rfl rfl rfl (by decide) (by decide) (by decide)⟩

/-- Claim C5: for every POST request, whatever the transport does, the
handler invokes the transport exactly once, with a mail whose `from` is the
submitter-supplied email (undefined passed through unvalidated), whose `to`
is the configured recipient, whose subject is "Message from <email>"
embedding the submitter-supplied email, and whose text is the
submitter-supplied message. -/
theorem handler_mail_composition (cfg : Config)
    (send : Mail → Except String Unit) (req : Request)
    (hm : req.method = "POST") :
    (handler cfg send req).2.1 =
      [{ «from» := req.body.email
         «to» := cfg.emailTo
         subject := "Message from " ++ jsToString req.body.email
         text := req.body.message }] := by
  unfold handler
  rw [if_neg (fun hne => hne hm)]
  cases send (mailOf cfg req.body) <;> rfl

/-- Witness for C5: a concrete POST request produces exactly one transport
invocation, with the composed mail. -/
theorem handler_mail_composition_witness :
    (handler ⟨"user", "pass", "me@site"⟩ (fun _ => .error "auth")
      ⟨"POST", ⟨some "a@b.com", some "hello"⟩⟩).2.1 =
      [⟨some "a@b.com", "me@site", "Message from a@b.com", some "hello"⟩] :=
  handler_mail_composition _ _ _ rfl

/-- Claim C6: every `handleSubmit` invocation — however the exchange settles
— first prevents the form's default navigation, then synchronously sets the
status to "Sending...", then issues exactly one POST to /api/contact whose
body carries the current email and message values; no other fetch occurs in
the trace. -/
theorem handleSubmit_single_post (st : FormState)
    (outcome : Except Unit Response) :
    (∃ rest, handleSubmit st outcome =
      [ClientEvent.preventDefault, ClientEvent.setStatus "Sending...",
       ClientEvent.fetchPost "/api/contact" st.email st.message] ++ rest) ∧
    countFetch (handleSubmit st outcome) = 1 := by
  constructor
  · exact ⟨match outcome with | .error _ => [] | .ok r => submitResume r,
      by cases outcome <;> rfl⟩
  · cases outcome <;> rfl

/-- Claim C7: whenever the exchange resolves — whatever status code and
message the response carries, success or failure — both input fields are
cleared to the empty string. -/
theorem handleSubmit_clears_fields (st : FormState) (r : Response) :
    (runEvents st (handleSubmit st (.ok r))).email = "" ∧
    (runEvents st (handleSubmit st (.ok r))).message = "" :=
  ⟨rfl, rfl⟩

/-- Claim C8: when the fetch rejects or JSON parsing fails, `handleSubmit`
terminates with the rejection having performed only its synchronous prefix:
no further state update occurs, so the status remains "Sending..." and the
email and message fields keep the values they had at submission. -/
theorem handleSubmit_no_catch (st : FormState) :
    handleSubmit st (.error ()) = submitStart st ∧
    runEvents st (handleSubmit st (.error ())) =
      { st with status := "Sending..." } :=
  ⟨rfl, rfl⟩

/-- Claim C9: for every submission whose response is received and parsed,
the final status is the verbatim `message` field of the response; after the
initial reset to "Sending..." the status is overwritten exactly once (two
`setStatus` calls in the whole trace); and the client inspects nothing else
of the response — replacing the response's HTTP status code by any other
value leaves the trace unchanged, so the status string is the only outcome
signal. -/
theorem handleSubmit_status_verbatim (st : FormState) (r : Response)
    (s : Nat) :
    (runEvents st (handleSubmit st (.ok r))).status = r.message ∧
    countSetStatus (handleSubmit st (.ok r)) = 2 ∧
    handleSubmit st (.ok r) = handleSubmit st (.ok ⟨s, r.message⟩) :=
  ⟨rfl, rfl, rfl⟩

/-- Claim C10: when a second submit occurs while a first submission is still
pending, the combined trace contains exactly two fetches — each submission
independently issues its own POST with its own field values, with no
client-side suppression — and the final displayed status is the message of
whichever response resolves last. -/
theorem two_submits_race (st0 st1 st2 : FormState)
    (rFirst rLast : Response) :
    countFetch (twoSubmitTrace st1 st2 rFirst rLast) = 2 ∧
    ClientEvent.fetchPost "/api/contact" st1.email st1.message ∈
      twoSubmitTrace st1 st2 rFirst rLast ∧
    ClientEvent.fetchPost "/api/contact" st2.email st2.message ∈
      twoSubmitTrace st1 st2 rFirst rLast ∧
    (runEvents st0 (twoSubmitTrace st1 st2 rFirst rLast)).status =
      rLast.message := by
  refine ⟨rfl, ?_, ?_, rfl⟩ <;>
    simp [twoSubmitTrace, submitStart, submitResume]
